import Mathlib

/-!
# World Map Game — quiz session state machine (shallow embedding of src/script.js)

The repository is a single script wiring click handlers for a map quiz.
We embed its quiz session state machine:

* The module-level mutable variables (`quizActive`, `currentTarget`, `guessCount`,
  `totalQuestions`, `correctAnswers`, `promptAudio`, `nextQTimer`) become fields of `St`.
* The per-region DOM state the script reads and writes (the `answered` class and
  the inline `fill` style) becomes `St.regions : RegionId → RegionSt`.
  The classes `correct`, `incorrect`, `asked` are removed by the script but never
  added anywhere, so they carry no state and are not modelled.
* `setTimeout`/`clearTimeout` are modelled by a fresh-handle counter `timerCtr`,
  the list `pendingTimers` of outstanding (scheduled, not yet fired, not cancelled)
  timeout handles — all timeouts in the script run `nextQuestion` — and the
  variable `nextQTimer`.  Firing a handle removes it from `pendingTimers`; the
  variable keeps its (now stale) value, exactly as in the script.
* Prompt-`Audio` objects (`find_*.wav`) are modelled by a fresh-handle counter
  `audioCtr`, the list `playingPrompts` of prompt audio handles currently playing,
  and the variable `promptAudio`.  `pause()` removes a handle from `playingPrompts`.
* The visible page elements the script mutates (question panel, question text,
  results modal, result title, score text, quiz button styling) are fields of `St`;
  all DOM elements are taken to be present (the script's `if (!el) return` guards
  never fire).
* Fire-and-forget sound cues (`correctSound`, `wrongSound`, `greatJobSound`,
  per-region click audio, prompt playback) are reported as a list of `Eff` values
  returned next to the new state.
* `Math.random()`-driven choice in `nextQuestion` is an explicit `r : Nat`
  parameter; the chosen index is `r % unanswered.length`, ranging over exactly
  the indices `Math.floor(Math.random() * unanswered.length)` can produce.
-/

namespace WorldMap

abbrev RegionId := String

/-- `ids` — the region id list (script.js lines 12-16). -/
def ids : List RegionId :=
  ["africa", "antarctica", "arctic", "asia", "atlantic",
   "australia", "europe", "indian", "north_america",
   "pacific", "south_america", "southern"]

/-- `NAME_MAP` — display-name override table (script.js lines 19-32). -/
def NAME_MAP : RegionId → Option String := fun id =>
  if id = "arctic" then some "Arctic Ocean"
  else if id = "atlantic" then some "Atlantic Ocean"
  else if id = "indian" then some "Indian Ocean"
  else if id = "pacific" then some "Pacific Ocean"
  else if id = "southern" then some "Southern Ocean"
  else if id = "north_america" then some "North America"
  else if id = "south_america" then some "South America"
  else if id = "antarctica" then some "Antarctica"
  else if id = "africa" then some "Africa"
  else if id = "asia" then some "Asia"
  else if id = "europe" then some "Europe"
  else if id = "australia" then some "Australia"
  else none

def NEUTRAL_FILL : String := "#d6d6d6"
def CORRECT_FILL : String := "#66ff66"
def GUESS_COLORS : List String := ["#ffcccc", "#ff9999", "#ff6666", "#ff3333", "#ff0000"]

/-- Fallback of `displayName`: `id.replace(/_/g,' ').replace(/\b[a-z]/g, upcase)` —
underscores become spaces, then every lowercase letter at a word start
(string start or after a space, once underscores are gone) is uppercased. -/
def capWordsAux : Bool → List Char → List Char
  | _, [] => []
  | atStart, c :: cs =>
    let c' := if atStart then c.toUpper else c
    c' :: capWordsAux (c = ' ') cs

def capWords (s : String) : String :=
  String.mk (capWordsAux true ((s.replace "_" " ").toList))

/-- `displayName` (script.js lines 69-72). -/
def displayName (id : RegionId) : String :=
  if id = "" then ""
  else match NAME_MAP id with
    | some n => n
    | none => capWords id

/-- Per-region DOM state the script manipulates: the `answered` class and the
inline `fill` style (`none` = no inline fill, original SVG color shows). -/
structure RegionSt where
  answered : Bool
  fill : Option String
  deriving Repr, DecidableEq

/-- The whole mutable state of script.js. -/
structure St where
  quizActive : Bool
  currentTarget : Option RegionId
  guessCount : Nat
  totalQuestions : Nat
  correctAnswers : Nat
  promptAudio : Option Nat
  nextQTimer : Option Nat
  regions : RegionId → RegionSt
  pendingTimers : List Nat
  timerCtr : Nat
  playingPrompts : List Nat
  audioCtr : Nat
  questionUIVisible : Bool
  questionText : String
  modalVisible : Bool
  resultTitleText : String
  scoreTextStr : String
  quizButtonActiveStyle : Bool

attribute [ext] St

/-- Fire-and-forget sound cues emitted by the handlers. -/
inductive Eff where
  | playCorrect
  | playWrong
  | playGreatJob
  | playPrompt (h : Nat)
  | playRegionAudio (id : RegionId)
  deriving Repr, DecidableEq

/-- Initial state: page just loaded, nothing active. -/
def init : St where
  quizActive := false
  currentTarget := none
  guessCount := 0
  totalQuestions := 0
  correctAnswers := 0
  promptAudio := none
  nextQTimer := none
  regions := fun _ => ⟨false, none⟩
  pendingTimers := []
  timerCtr := 0
  playingPrompts := []
  audioCtr := 0
  questionUIVisible := false
  questionText := ""
  modalVisible := false
  resultTitleText := ""
  scoreTextStr := ""
  quizButtonActiveStyle := false

/-- `setRegionFill` (script.js lines 93-95). -/
def setRegionFill (s : St) (id : RegionId) (color : String) : St :=
  { s with regions := fun j =>
      if j = id then { s.regions j with fill := some color } else s.regions j }

/-- Add the `answered` class to a region (`el.classList.add('answered')`). -/
def markAnswered (s : St) (id : RegionId) : St :=
  { s with regions := fun j =>
      if j = id then { s.regions j with answered := true } else s.regions j }

/-- `stopPromptAudio` (script.js lines 101-106): pause and rewind the current
prompt audio, then null the handle. -/
def stopPromptAudio (s : St) : St :=
  match s.promptAudio with
  | none => s
  | some h => { s with playingPrompts := s.playingPrompts.erase h, promptAudio := none }

/-- `clearNextQTimer` (script.js lines 108-113). -/
def clearNextQTimer (s : St) : St :=
  match s.nextQTimer with
  | none => s
  | some h => { s with pendingTimers := s.pendingTimers.erase h, nextQTimer := none }

/-- `scheduleNextQuestion` (script.js lines 115-118): clear any pending timer,
then `setTimeout(nextQuestion, delayMs)` (the 800 ms delay itself is not part of
the state machine). -/
def scheduleNextQuestion (s : St) : St :=
  let s := clearNextQTimer s
  { s with pendingTimers := s.timerCtr :: s.pendingTimers,
           nextQTimer := some s.timerCtr,
           timerCtr := s.timerCtr + 1 }

/-- `resetAllColors` (script.js lines 121-128): every region of `ids` that does
not have the `answered` class gets the neutral fill.  (The class removals there
are no-ops: `correct`/`incorrect`/`asked` are never added.) -/
def resetAllColors (s : St) : St :=
  { s with regions := fun j =>
      if ids.contains j ∧ ¬(s.regions j).answered
        then { s.regions j with fill := some NEUTRAL_FILL }
        else s.regions j }

/-- `updateQuizButtonUI` (script.js lines 131-148), abstracted to whether the
button shows the active (red "Exit Quiz") styling. -/
def updateQuizButtonUI (s : St) : St :=
  { s with quizButtonActiveStyle := s.quizActive }

/-- `Math.round((correctAnswers / ids.length) * 100)` (script.js line 223) over
the exact rationals: `round(x) = floor(x + 1/2)` for the nonnegative values that
occur, i.e. `(2 * (c * 100) + n) / (2 * n)` in natural division.  (For `n = 12`,
`c * 100 / 12` is never a half-integer and the float error of the script's
double arithmetic is far below the distance to a rounding boundary, so this is
the value the script computes.) -/
def jsRoundPct (c n : Nat) : Nat := (2 * (c * 100) + n) / (2 * n)

/-- The score `showQuizResults` computes from `correctAnswers`. -/
def jsScore (c : Nat) : Nat := jsRoundPct c ids.length

/-- `showQuizResults` (script.js lines 215-233). -/
def showQuizResults (s : St) : St × List Eff :=
  let s := { s with quizActive := false, currentTarget := none }
  let s := clearNextQTimer s
  let s := stopPromptAudio s
  let s := updateQuizButtonUI s
  let score := jsScore s.correctAnswers
  let s := { s with
    resultTitleText := if score = 100 then "Great Job!" else "Quiz Complete!",
    scoreTextStr := "You got " ++ toString s.correctAnswers ++ " out of "
      ++ toString ids.length ++ " correct. (" ++ toString score ++ "%)",
    modalVisible := true }
  (s, if score = 100 then [Eff.playGreatJob] else [])

/-- `nextQuestion` (script.js lines 235-259), with the random draw supplied as
`r` (index `r % unanswered.length`; in the nonempty branch that index is in
bounds, so the `getD` default is never used). -/
def nextQuestion (r : Nat) (s : St) : St × List Eff :=
  let s := clearNextQTimer s
  let s := stopPromptAudio s
  let s := resetAllColors s
  let unanswered := ids.filter (fun id => !(s.regions id).answered)
  if unanswered = [] then
    showQuizResults s
  else
    let t := unanswered.getD (r % unanswered.length) ""
    let a := s.audioCtr
    let s := { s with
      currentTarget := some t,
      guessCount := 0,
      promptAudio := some a,
      playingPrompts := a :: s.playingPrompts,
      audioCtr := a + 1,
      questionText := "Find " ++ displayName t }
    (s, [Eff.playPrompt a])

/-- `startQuizFresh` (script.js lines 163-184). -/
def startQuizFresh (r : Nat) (s : St) : St × List Eff :=
  let s := { s with quizActive := true, currentTarget := none,
                    guessCount := 0, totalQuestions := 0, correctAnswers := 0 }
  let s := clearNextQTimer s
  let s := stopPromptAudio s
  let s := updateQuizButtonUI s
  let s := { s with questionUIVisible := true }
  let s := { s with regions := fun j =>
      if ids.contains j then ⟨false, some NEUTRAL_FILL⟩ else s.regions j }
  nextQuestion r s

/-- `resetQuiz` (script.js lines 186-189): just `startQuizFresh`. -/
def resetQuiz (r : Nat) (s : St) : St × List Eff :=
  startQuizFresh r s

/-- `endQuizToHome` (script.js lines 191-213).  Note it does not reset
`guessCount`. -/
def endQuizToHome (s : St) : St × List Eff :=
  let s := { s with quizActive := false, currentTarget := none }
  let s := clearNextQTimer s
  let s := stopPromptAudio s
  let s := updateQuizButtonUI s
  let s := { s with questionUIVisible := false }
  let s := { s with regions := fun j =>
      if ids.contains j then ⟨false, none⟩ else s.regions j }
  let s := { s with totalQuestions := 0, correctAnswers := 0 }
  let s := { s with modalVisible := false }
  (s, [])

/-- The quiz click listener (script.js lines 262-299) — the spec's
`submitGuess(regionId)`. -/
def submitGuess (id : RegionId) (s : St) : St × List Eff :=
  match s.currentTarget with
  | none => (s, [])
  | some t =>
    if ¬s.quizActive then (s, [])
    else if (s.regions id).answered then (s, [])
    else if id = t then
      let s := markAnswered s id
      let s := setRegionFill s id CORRECT_FILL
      let s := { s with
        correctAnswers := if s.guessCount = 0 then s.correctAnswers + 1 else s.correctAnswers,
        totalQuestions := s.totalQuestions + 1 }
      let s := scheduleNextQuestion s
      (s, [Eff.playCorrect])
    else
      let s := setRegionFill s id
        (GUESS_COLORS.getD (min s.guessCount (GUESS_COLORS.length - 1)) "")
      let s := { s with guessCount := s.guessCount + 1 }
      if s.guessCount ≥ 5 then
        let s := markAnswered s t
        let s := setRegionFill s t CORRECT_FILL
        let s := { s with totalQuestions := s.totalQuestions + 1 }
        let s := scheduleNextQuestion s
        (s, [Eff.playWrong])
      else
        (s, [Eff.playWrong])

/-- The regular-mode click listener (script.js lines 151-160): outside the quiz
a click plays the region's own audio; during the quiz it does nothing. -/
def regularClick (id : RegionId) (s : St) : St × List Eff :=
  if s.quizActive then (s, []) else (s, [Eff.playRegionAudio id])

/-!
## The event loop

Discrete events the page can receive.  A region click runs both listeners
attached to the element, in registration order: the regular-mode one
(lines 151-160), then the quiz one (lines 262-299).  A timeout callback can run
only for a handle that is still scheduled (`clearTimeout` removes it);
`timerFire` carries the random draw its `nextQuestion` call will use.
An `Audio` object stops playing on its own when the clip ends (`audioEnded`).
The button handlers are script.js lines 304-351.
-/
inductive Ev where
  | clickRegion (id : RegionId)
  | timerFire (h : Nat) (r : Nat)
  | quizButtonClick (r : Nat)
  | repeatClick
  | resetClick (r : Nat)
  | homeClick
  | practiceClick (r : Nat)
  | audioEnded (h : Nat)
  deriving Repr, DecidableEq

def step (e : Ev) (s : St) : St × List Eff :=
  match e with
  | .clickRegion id =>
    if ids.contains id then
      let p1 := regularClick id s
      let p2 := submitGuess id p1.1
      (p2.1, p1.2 ++ p2.2)
    else (s, [])
  | .timerFire h r =>
    if s.pendingTimers.contains h then
      nextQuestion r { s with pendingTimers := s.pendingTimers.erase h }
    else (s, [])
  | .quizButtonClick r =>
    if s.quizActive then endQuizToHome s else startQuizFresh r s
  | .repeatClick =>
    match s.promptAudio with
    | none => (s, [])
    | some h =>
      ({ s with playingPrompts :=
          if s.playingPrompts.contains h then s.playingPrompts
          else h :: s.playingPrompts },
       [Eff.playPrompt h])
  | .resetClick r => resetQuiz r s
  | .homeClick =>
    let s := { s with modalVisible := false }
    endQuizToHome s
  | .practiceClick r =>
    let s := { s with modalVisible := false }
    let s := clearNextQTimer s
    let s := stopPromptAudio s
    startQuizFresh r s
  | .audioEnded h =>
    if s.playingPrompts.contains h then
      ({ s with playingPrompts := s.playingPrompts.erase h }, [])
    else (s, [])

/-- Run a list of events from a state, keeping only the state. -/
def runEvents (s : St) (evs : List Ev) : St :=
  evs.foldl (fun s e => (step e s).1) s

/-- A state is reachable when some event sequence from page load produces it. -/
def Reachable (s : St) : Prop := ∃ evs, runEvents init evs = s

/-!
## Invariants
-/

/-- At most one outstanding timeout, and it is the one `nextQTimer` tracks. -/
def TimerInv (s : St) : Prop :=
  s.pendingTimers = [] ∨ ∃ h, s.pendingTimers = [h] ∧ s.nextQTimer = some h

/-- At most one playing prompt audio, and it is the one `promptAudio` tracks. -/
def AudioInv (s : St) : Prop :=
  s.playingPrompts = [] ∨ ∃ h, s.playingPrompts = [h] ∧ s.promptAudio = some h

/-- The inductive invariant of the event loop. -/
def MasterInv (s : St) : Prop :=
  TimerInv s ∧ AudioInv s
    ∧ (s.currentTarget ≠ none → s.quizActive = true)
    ∧ (s.pendingTimers ≠ [] → s.quizActive = true)
    ∧ (s.quizActive = true → s.pendingTimers = [] → s.guessCount ≤ 4)

theorem reachable_ind (P : St → Prop) (h0 : P init)
    (hs : ∀ s e, P s → P (step e s).1) :
    ∀ s, Reachable s → P s := by
  have key : ∀ (l : List Ev) (s : St), P s → P (runEvents s l) := by
    intro l
    induction l with
    | nil => intro s h; exact h
    | cons e l ih =>
      intro s h
      exact ih _ (hs s e h)
  rintro s ⟨evs, rfl⟩
  exact key evs init h0

theorem clearNextQTimer_spec (s : St) (ht : TimerInv s) :
    clearNextQTimer s = { s with pendingTimers := [], nextQTimer := none } := by
  rcases ht with h | ⟨h, hp, hn⟩
  · cases hn : s.nextQTimer with
    | none =>
      simp only [clearNextQTimer, hn]
      rw [← h, ← hn]
    | some k =>
      simp only [clearNextQTimer, hn, h, List.erase_nil]
  · simp only [clearNextQTimer, hn, hp, List.erase_cons_head]

theorem stopPromptAudio_spec (s : St) (ha : AudioInv s) :
    stopPromptAudio s = { s with playingPrompts := [], promptAudio := none } := by
  rcases ha with h | ⟨h, hp, hn⟩
  · cases hn : s.promptAudio with
    | none =>
      simp only [stopPromptAudio, hn]
      rw [← h, ← hn]
    | some k =>
      simp only [stopPromptAudio, hn, h, List.erase_nil]
  · simp only [stopPromptAudio, hn, hp, List.erase_cons_head]

theorem getD_mem_of_lt (l : List RegionId) (n : Nat) (d : RegionId)
    (h : n < l.length) : l.getD n d ∈ l := by
  rw [List.getD_eq_getElem?_getD, List.getElem?_eq_getElem h]
  simp [List.getElem_mem]

/-- After the per-region clear of `startQuizFresh`, every region of `ids` is
unanswered, so `nextQuestion`'s filter keeps the whole list. -/
theorem filter_unanswered_of_cleared (g : RegionId → RegionSt)
    (hg : ∀ j ∈ ids, (g j).answered = false) :
    ids.filter (fun id => !(g id).answered) = ids := by
  rw [List.filter_eq_self]
  intro a ha
  simp [hg a ha]

theorem resetAllColors_of_cleared (s : St)
    (hg : ∀ j ∈ ids, s.regions j = ⟨false, some NEUTRAL_FILL⟩) :
    resetAllColors s = s := by
  have : (fun j => if ids.contains j ∧ ¬(s.regions j).answered
      then { s.regions j with fill := some NEUTRAL_FILL } else s.regions j) = s.regions := by
    funext j
    by_cases hj : j ∈ ids
    · simp [hg j hj]
    · simp [hj]
  simp only [resetAllColors, this]

/-- Closed form of `nextQuestion` on a state whose timers, audio and region
flags have just been cleared (as `startQuizFresh` leaves them). -/
theorem nextQuestion_cleared_spec (r : Nat) (s : St)
    (ht : s.nextQTimer = none) (_hp : s.pendingTimers = [])
    (hpa : s.promptAudio = none) (hpl : s.playingPrompts = [])
    (hreg : ∀ j ∈ ids, s.regions j = ⟨false, some NEUTRAL_FILL⟩) :
    nextQuestion r s =
      ({ s with currentTarget := some (ids.getD (r % ids.length) ""),
                guessCount := 0,
                promptAudio := some s.audioCtr,
                playingPrompts := [s.audioCtr],
                audioCtr := s.audioCtr + 1,
                questionText := "Find " ++ displayName (ids.getD (r % ids.length) "") },
       [Eff.playPrompt s.audioCtr]) := by
  have h1 : clearNextQTimer s = s := by simp [clearNextQTimer, ht]
  have h2 : stopPromptAudio s = s := by simp [stopPromptAudio, hpa]
  have h3 : resetAllColors s = s := resetAllColors_of_cleared s hreg
  have h4 : ids.filter (fun id => !(s.regions id).answered) = ids :=
    filter_unanswered_of_cleared _ (fun j hj => by simp [hreg j hj])
  simp only [nextQuestion, h1, h2, h3, h4]
  rw [if_neg (by simp [ids])]
  simp [hpl, ids]

/-- Closed form of `startQuizFresh` under the timer and audio invariants:
everything is reset, the target is drawn from the full (freshly unanswered)
region list, and the new prompt is the only playing audio. -/
theorem startQuizFresh_spec (r : Nat) (s : St) (ht : TimerInv s) (ha : AudioInv s) :
    startQuizFresh r s =
      ({ quizActive := true,
         currentTarget := some (ids.getD (r % ids.length) ""),
         guessCount := 0, totalQuestions := 0, correctAnswers := 0,
         promptAudio := some s.audioCtr, nextQTimer := none,
         regions := fun j => if ids.contains j then ⟨false, some NEUTRAL_FILL⟩ else s.regions j,
         pendingTimers := [], timerCtr := s.timerCtr,
         playingPrompts := [s.audioCtr], audioCtr := s.audioCtr + 1,
         questionUIVisible := true,
         questionText := "Find " ++ displayName (ids.getD (r % ids.length) ""),
         modalVisible := s.modalVisible, resultTitleText := s.resultTitleText,
         scoreTextStr := s.scoreTextStr, quizButtonActiveStyle := true },
       [Eff.playPrompt s.audioCtr]) := by
  have ht1 : TimerInv { s with quizActive := true, currentTarget := none, guessCount := 0, totalQuestions := 0, correctAnswers := 0 } := ht
  have ha1 : AudioInv { s with quizActive := true, currentTarget := none, guessCount := 0, totalQuestions := 0, correctAnswers := 0, pendingTimers := [], nextQTimer := none } := ha
  simp only [startQuizFresh]
  rw [clearNextQTimer_spec _ ht1, stopPromptAudio_spec _ ha1]
  exact nextQuestion_cleared_spec r _ rfl rfl rfl rfl
    (fun j hj => by simp [updateQuizButtonUI, hj])

/-- Closed form of `scheduleNextQuestion` under the timer invariant: the new
timeout is the only pending one. -/
theorem scheduleNextQuestion_spec (s : St) (ht : TimerInv s) :
    scheduleNextQuestion s = { s with pendingTimers := [s.timerCtr], nextQTimer := some s.timerCtr, timerCtr := s.timerCtr + 1 } := by
  simp only [scheduleNextQuestion]
  rw [clearNextQTimer_spec _ ht]

/-- Closed form of `endQuizToHome` under the timer and audio invariants. -/
theorem endQuizToHome_spec (s : St) (ht : TimerInv s) (ha : AudioInv s) :
    endQuizToHome s = ({ s with quizActive := false, currentTarget := none, pendingTimers := [], nextQTimer := none, playingPrompts := [], promptAudio := none, quizButtonActiveStyle := false, questionUIVisible := false, regions := fun j => if ids.contains j then ⟨false, none⟩ else s.regions j, totalQuestions := 0, correctAnswers := 0, modalVisible := false }, []) := by
  have ht1 : TimerInv { s with quizActive := false, currentTarget := none } := ht
  have ha1 : AudioInv { s with quizActive := false, currentTarget := none, pendingTimers := [], nextQTimer := none } := ha
  simp only [endQuizToHome]
  rw [clearNextQTimer_spec _ ht1, stopPromptAudio_spec _ ha1]
  simp [updateQuizButtonUI]

/-- Closed form of `showQuizResults` under the timer and audio invariants. -/
theorem showQuizResults_spec (s : St) (ht : TimerInv s) (ha : AudioInv s) :
    showQuizResults s = ({ s with quizActive := false, currentTarget := none, pendingTimers := [], nextQTimer := none, playingPrompts := [], promptAudio := none, quizButtonActiveStyle := false, resultTitleText := if jsScore s.correctAnswers = 100 then "Great Job!" else "Quiz Complete!", scoreTextStr := "You got " ++ toString s.correctAnswers ++ " out of " ++ toString ids.length ++ " correct. (" ++ toString (jsScore s.correctAnswers) ++ "%)", modalVisible := true }, if jsScore s.correctAnswers = 100 then [Eff.playGreatJob] else []) := by
  have ht1 : TimerInv { s with quizActive := false, currentTarget := none } := ht
  have ha1 : AudioInv { s with quizActive := false, currentTarget := none, pendingTimers := [], nextQTimer := none } := ha
  simp only [showQuizResults]
  rw [clearNextQTimer_spec _ ht1, stopPromptAudio_spec _ ha1]
  simp [updateQuizButtonUI]

/-!
### Preservation of the master invariant
-/

theorem masterInv_init : MasterInv init := by
  refine ⟨Or.inl rfl, Or.inl rfl, fun h => absurd rfl h, fun h => absurd rfl h, fun _ _ => by decide⟩

theorem masterInv_startQuizFresh (r : Nat) (s : St) (ht : TimerInv s) (ha : AudioInv s) :
    MasterInv (startQuizFresh r s).1 := by
  rw [startQuizFresh_spec r s ht ha]
  exact ⟨Or.inl rfl, Or.inr ⟨s.audioCtr, rfl, rfl⟩, fun _ => rfl,
    fun h => absurd rfl h, fun _ _ => Nat.zero_le 4⟩

theorem masterInv_endQuizToHome (s : St) (ht : TimerInv s) (ha : AudioInv s) :
    MasterInv (endQuizToHome s).1 := by
  rw [endQuizToHome_spec s ht ha]
  exact ⟨Or.inl rfl, Or.inl rfl, fun h => absurd rfl h,
    fun h => absurd rfl h, fun h _ => by simp at h⟩

theorem masterInv_nextQuestion (r : Nat) (s : St) (hq : s.quizActive = true)
    (ht : TimerInv s) (ha : AudioInv s) : MasterInv (nextQuestion r s).1 := by
  have ha1 : AudioInv { s with pendingTimers := [], nextQTimer := none } := ha
  simp only [nextQuestion]
  rw [clearNextQTimer_spec _ ht, stopPromptAudio_spec _ ha1]
  split
  · rw [showQuizResults_spec _ (Or.inl rfl) (Or.inl rfl)]
    exact ⟨Or.inl rfl, Or.inl rfl, fun h => absurd rfl h,
      fun h => absurd rfl h, fun h _ => by simp at h⟩
  · refine ⟨Or.inl rfl, Or.inr ⟨_, rfl, rfl⟩, fun _ => ?_, fun h => absurd rfl h,
      fun _ _ => Nat.zero_le 4⟩
    simpa [resetAllColors] using hq

/-- Scheduling the advance timer from an active state keeps the invariant. -/
theorem masterInv_afterSchedule (s : St) (ht : TimerInv s) (ha : AudioInv s)
    (hq : s.quizActive = true) : MasterInv (scheduleNextQuestion s) := by
  rw [scheduleNextQuestion_spec s ht]
  exact ⟨Or.inr ⟨s.timerCtr, rfl, rfl⟩, ha, fun _ => hq, fun _ => hq,
    fun _ h => by simp at h⟩

theorem masterInv_submitGuess (id : RegionId) (s : St) (hm : MasterInv s) :
    MasterInv (submitGuess id s).1 := by
  obtain ⟨ht, ha, h3, h4, h5⟩ := hm
  simp only [submitGuess]
  split
  · exact ⟨ht, ha, h3, h4, h5⟩
  next t heq =>
    split
    · exact ⟨ht, ha, h3, h4, h5⟩
    next hact =>
      have hq : s.quizActive = true := not_not.mp hact
      split
      · exact ⟨ht, ha, h3, h4, h5⟩
      · split
        · exact masterInv_afterSchedule _ ht ha hq
        · split
          · exact masterInv_afterSchedule _ ht ha hq
          next h5g =>
            refine ⟨ht, ha, fun _ => hq, fun _ => hq, fun _ _ => ?_⟩
            simp only [ge_iff_le, not_le, setRegionFill] at h5g
            simp only [setRegionFill]
            omega

theorem regularClick_state (id : RegionId) (s : St) : (regularClick id s).1 = s := by
  simp only [regularClick]
  split <;> rfl

theorem masterInv_step (s : St) (e : Ev) (hm : MasterInv s) : MasterInv (step e s).1 := by
  obtain ⟨ht, ha, h3, h4, h5⟩ := hm
  cases e with
  | clickRegion id =>
    simp only [step]
    split
    · rw [regularClick_state]
      exact masterInv_submitGuess id s ⟨ht, ha, h3, h4, h5⟩
    · exact ⟨ht, ha, h3, h4, h5⟩
  | timerFire h r =>
    simp only [step]
    split
    next hmem =>
      have hmem' : h ∈ s.pendingTimers := by simpa using hmem
      rcases ht with hnil | ⟨k, hk, hn⟩
      · rw [hnil] at hmem'
        exact absurd hmem' (List.not_mem_nil h)
      · have hhk : h = k := by
          rw [hk] at hmem'
          simpa using hmem'
        have herase : s.pendingTimers.erase h = [] := by
          rw [hk, hhk]
          simp
        rw [herase]
        have hq : s.quizActive = true := h4 (by rw [hk]; simp)
        exact masterInv_nextQuestion r _ hq (Or.inl rfl) ha
    · exact ⟨ht, ha, h3, h4, h5⟩
  | quizButtonClick r =>
    simp only [step]
    split
    · exact masterInv_endQuizToHome s ht ha
    · exact masterInv_startQuizFresh r s ht ha
  | repeatClick =>
    simp only [step]
    split
    · exact ⟨ht, ha, h3, h4, h5⟩
    next hsome =>
      split
      · exact ⟨ht, ha, h3, h4, h5⟩
      next hmem =>
        have hnil : s.playingPrompts = [] := by
          rcases ha with hnil | ⟨k, hk, hn⟩
          · exact hnil
          · rw [hn] at hsome
            cases hsome
            rw [hk] at hmem
            simp at hmem
        rw [hnil]
        exact ⟨ht, Or.inr ⟨_, rfl, hsome⟩, h3, h4, h5⟩
  | resetClick r =>
    simp only [step, resetQuiz]
    exact masterInv_startQuizFresh r s ht ha
  | homeClick =>
    simp only [step]
    exact masterInv_endQuizToHome _ ht ha
  | practiceClick r =>
    have ht1 : TimerInv { s with modalVisible := false } := ht
    have ha1 : AudioInv { s with modalVisible := false, pendingTimers := [], nextQTimer := none } := ha
    simp only [step]
    rw [clearNextQTimer_spec _ ht1, stopPromptAudio_spec _ ha1]
    exact masterInv_startQuizFresh r _ (Or.inl rfl) (Or.inl rfl)
  | audioEnded h =>
    simp only [step]
    split
    next hmem =>
      have hmem' : h ∈ s.playingPrompts := by simpa using hmem
      rcases ha with hnil | ⟨k, hk, hn⟩
      · rw [hnil] at hmem'
        exact absurd hmem' (List.not_mem_nil h)
      · have herase : s.playingPrompts.erase h = [] := by
          have : h = k := by
            rw [hk] at hmem'
            simpa using hmem'
          rw [hk, this]
          simp
        rw [herase]
        exact ⟨ht, Or.inl rfl, h3, h4, h5⟩
    · exact ⟨ht, ha, h3, h4, h5⟩

/-- Every reachable state satisfies the master invariant. -/
theorem masterInv_reachable (s : St) (hr : Reachable s) : MasterInv s :=
  reachable_ind MasterInv masterInv_init (fun s e hm => masterInv_step s e hm) s hr

/-!
### Projection lemmas for the two match-based operations
-/

@[simp]
theorem clearNextQTimer_fields (s : St) :
    (clearNextQTimer s).quizActive = s.quizActive
    ∧ (clearNextQTimer s).currentTarget = s.currentTarget
    ∧ (clearNextQTimer s).guessCount = s.guessCount
    ∧ (clearNextQTimer s).totalQuestions = s.totalQuestions
    ∧ (clearNextQTimer s).correctAnswers = s.correctAnswers
    ∧ (clearNextQTimer s).promptAudio = s.promptAudio
    ∧ (clearNextQTimer s).regions = s.regions
    ∧ (clearNextQTimer s).timerCtr = s.timerCtr
    ∧ (clearNextQTimer s).playingPrompts = s.playingPrompts
    ∧ (clearNextQTimer s).audioCtr = s.audioCtr
    ∧ (clearNextQTimer s).questionUIVisible = s.questionUIVisible
    ∧ (clearNextQTimer s).questionText = s.questionText
    ∧ (clearNextQTimer s).modalVisible = s.modalVisible
    ∧ (clearNextQTimer s).resultTitleText = s.resultTitleText
    ∧ (clearNextQTimer s).scoreTextStr = s.scoreTextStr
    ∧ (clearNextQTimer s).quizButtonActiveStyle = s.quizButtonActiveStyle
    ∧ (clearNextQTimer s).nextQTimer = none := by
  cases h : s.nextQTimer <;> simp [clearNextQTimer, h]

@[simp]
theorem stopPromptAudio_fields (s : St) :
    (stopPromptAudio s).quizActive = s.quizActive
    ∧ (stopPromptAudio s).currentTarget = s.currentTarget
    ∧ (stopPromptAudio s).guessCount = s.guessCount
    ∧ (stopPromptAudio s).totalQuestions = s.totalQuestions
    ∧ (stopPromptAudio s).correctAnswers = s.correctAnswers
    ∧ (stopPromptAudio s).nextQTimer = s.nextQTimer
    ∧ (stopPromptAudio s).regions = s.regions
    ∧ (stopPromptAudio s).pendingTimers = s.pendingTimers
    ∧ (stopPromptAudio s).timerCtr = s.timerCtr
    ∧ (stopPromptAudio s).audioCtr = s.audioCtr
    ∧ (stopPromptAudio s).questionUIVisible = s.questionUIVisible
    ∧ (stopPromptAudio s).questionText = s.questionText
    ∧ (stopPromptAudio s).modalVisible = s.modalVisible
    ∧ (stopPromptAudio s).resultTitleText = s.resultTitleText
    ∧ (stopPromptAudio s).scoreTextStr = s.scoreTextStr
    ∧ (stopPromptAudio s).quizButtonActiveStyle = s.quizButtonActiveStyle
    ∧ (stopPromptAudio s).promptAudio = none := by
  cases h : s.promptAudio <;> simp [stopPromptAudio, h]

/-- Full characterisation of the incorrect-guess branch of the quiz click
listener (script.js lines 283-297). -/
theorem submitGuess_wrong_spec (s : St) (t id : RegionId)
    (hq : s.quizActive = true) (hc : s.currentTarget = some t)
    (hans : (s.regions id).answered = false) (hne : id ≠ t) :
    (submitGuess id s).1.guessCount = s.guessCount + 1
    ∧ ((submitGuess id s).1.regions id).fill
        = some (GUESS_COLORS.getD (min s.guessCount (GUESS_COLORS.length - 1)) "")
    ∧ (submitGuess id s).2 = [Eff.playWrong]
    ∧ (submitGuess id s).1.totalQuestions
        = (if s.guessCount + 1 ≥ 5 then s.totalQuestions + 1 else s.totalQuestions)
    ∧ (submitGuess id s).1.correctAnswers = s.correctAnswers
    ∧ (submitGuess id s).1.currentTarget = some t
    ∧ (submitGuess id s).1.quizActive = true
    ∧ (s.guessCount + 1 ≥ 5 →
        ((submitGuess id s).1.regions t).answered = true
        ∧ ((submitGuess id s).1.regions t).fill = some CORRECT_FILL
        ∧ (submitGuess id s).1.pendingTimers ≠ [])
    ∧ (s.guessCount + 1 < 5 →
        (submitGuess id s).1.regions t = s.regions t
        ∧ (submitGuess id s).1.pendingTimers = s.pendingTimers) := by
  simp only [submitGuess, hc]
  rw [if_neg (not_not_intro hq), if_neg (by simp [hans]), if_neg hne]
  by_cases h5 : s.guessCount + 1 ≥ 5
  · rw [if_pos (by simpa [setRegionFill] using h5)]
    refine ⟨?_, ?_, rfl, ?_, ?_, ?_, ?_, fun _ => ⟨?_, ?_, ?_⟩, fun hlt => absurd h5 (by omega)⟩
    all_goals
      simp [scheduleNextQuestion, setRegionFill, markAnswered, hne, h5, Ne.symm hne, hc, hq]
  · rw [if_neg (by simpa [setRegionFill] using h5)]
    refine ⟨?_, ?_, rfl, ?_, ?_, ?_, ?_, fun hge => absurd hge h5, fun _ => ⟨?_, ?_⟩⟩
    all_goals
      simp [setRegionFill, Ne.symm hne, hc, hq, h5]

/-- Full characterisation of the correct-guess branch of the quiz click
listener (script.js lines 274-282). -/
theorem submitGuess_correct_spec (s : St) (t : RegionId)
    (hq : s.quizActive = true) (hc : s.currentTarget = some t)
    (hans : (s.regions t).answered = false) :
    (submitGuess t s).1.currentTarget = some t
    ∧ (submitGuess t s).1.guessCount = s.guessCount
    ∧ (submitGuess t s).1.quizActive = true
    ∧ ((submitGuess t s).1.regions t).answered = true
    ∧ ((submitGuess t s).1.regions t).fill = some CORRECT_FILL
    ∧ (submitGuess t s).1.totalQuestions = s.totalQuestions + 1
    ∧ (submitGuess t s).1.correctAnswers
        = s.correctAnswers + (if s.guessCount = 0 then 1 else 0)
    ∧ (submitGuess t s).2 = [Eff.playCorrect]
    ∧ (submitGuess t s).1.pendingTimers ≠ [] := by
  simp only [submitGuess, hc]
  rw [if_neg (not_not_intro hq), if_neg (by simp [hans]), if_pos trivial]
  refine ⟨?_, ?_, ?_, ?_, ?_, ?_, ?_, rfl, ?_⟩
  all_goals
    simp [scheduleNextQuestion, setRegionFill, markAnswered, hc, hq]
  split <;> simp

/-!
## Claims
-/

/-- **C1.** For every active session and every question, when `submitGuess` is
called with the current target region, `correctAnswers` increments by exactly 1
if and only if `guessCount` is 0 at that moment (the correct region was the very
first guess of the question), and `totalQuestions` increments by exactly 1 in
either case. -/
theorem C1_first_guess_scoring (s : St) (t : RegionId)
    (hq : s.quizActive = true) (hc : s.currentTarget = some t)
    (hans : (s.regions t).answered = false) :
    (submitGuess t s).1.correctAnswers
        = s.correctAnswers + (if s.guessCount = 0 then 1 else 0)
      ∧ (submitGuess t s).1.totalQuestions = s.totalQuestions + 1 := by
  simp only [submitGuess, hc]
  rw [if_neg (not_not_intro hq), if_neg (by simp [hans]), if_pos trivial]
  simp only [scheduleNextQuestion]
  constructor
  · simp [markAnswered, setRegionFill]
    split <;> simp
  · simp [markAnswered, setRegionFill]

/-- Concrete check of `C1_first_guess_scoring`: right after the quiz starts
(target `africa`, no guesses yet), clicking `africa` moves
`correctAnswers` from 0 to 1 and `totalQuestions` from 0 to 1. -/
theorem C1_first_guess_scoring_witness :
    (runEvents init [Ev.quizButtonClick 0]).quizActive = true
    ∧ (runEvents init [Ev.quizButtonClick 0]).currentTarget = some "africa"
    ∧ (submitGuess "africa" (runEvents init [Ev.quizButtonClick 0])).1.correctAnswers = 1
    ∧ (submitGuess "africa" (runEvents init [Ev.quizButtonClick 0])).1.totalQuestions = 1 := by
  refine ⟨by decide, by decide, ?_⟩
  have h := C1_first_guess_scoring (runEvents init [Ev.quizButtonClick 0]) "africa"
    (by decide) (by decide) (by decide)
  rw [h.1, h.2]
  decide

/-- **C5.** For every state in which the machine is Idle (`quizActive = false`),
or the clicked region is already flagged answered, or `currentTarget` is unset,
`submitGuess` on that region is a no-op: the state is returned unchanged (so
`guessCount`, `totalQuestions`, `correctAnswers`, every region's answered flag
and color are untouched) and no cue side effect fires. -/
theorem C5_noop_guards (s : St) (id : RegionId)
    (h : s.quizActive = false ∨ s.currentTarget = none ∨ (s.regions id).answered = true) :
    submitGuess id s = (s, []) := by
  rcases h with h | h | h
  · simp only [submitGuess]
    cases hc : s.currentTarget with
    | none => rfl
    | some t => simp [h]
  · simp only [submitGuess, h]
  · simp only [submitGuess]
    cases hc : s.currentTarget with
    | none => rfl
    | some t =>
      by_cases hq : s.quizActive = true
      · simp [hq, h]
      · simp [hq]

/-- Concrete check of `C5_noop_guards`: a click before any quiz has started is
ignored by the quiz listener. -/
theorem C5_noop_guards_witness : submitGuess "africa" init = (init, []) :=
  C5_noop_guards init "africa" (Or.inl rfl)

/-- **C8, counterexample.** The claim says the ramp index is
`min(guessCount, maxRampIndex)` evaluated *after* the increment, so the first
wrong guess of a question (k = 1) would be colored `GUESS_COLORS[1] = #ff9999`.
In fact the code colors before incrementing: after the quiz starts (target
`africa`, `guessCount = 0`) a first wrong click on `southern` leaves
`guessCount = 1` but paints `southern` with `GUESS_COLORS[0] = #ffcccc`. -/
theorem C8_counterexample :
    ((runEvents init [Ev.quizButtonClick 0, Ev.clickRegion "southern"]).regions "southern").fill
        = some "#ffcccc"
    ∧ (runEvents init [Ev.quizButtonClick 0, Ev.clickRegion "southern"]).guessCount = 1
    ∧ GUESS_COLORS.getD (min 1 (GUESS_COLORS.length - 1)) "" = "#ff9999"
    ∧ some "#ffcccc" ≠ some "#ff9999" := by
  refine ⟨by decide, by decide, by decide, by decide⟩

/-- **C8, amended.** On every incorrect guess (`submitGuess` with
`regionId ≠ currentTarget` while a target is set and the quiz active),
`guessCount` is incremented and the clicked region is colored with the severity
ramp entry at index `min(guessCount, maxRampIndex)` evaluated *before* the
increment, so the k-th consecutive incorrect guess of a question (k ≥ 1) is
colored with ramp index `min(k - 1, 4)`. -/
theorem C8_wrong_guess_color (s : St) (t id : RegionId)
    (hq : s.quizActive = true) (hc : s.currentTarget = some t)
    (hans : (s.regions id).answered = false) (hne : id ≠ t) :
    ((submitGuess id s).1.regions id).fill
        = some (GUESS_COLORS.getD (min s.guessCount (GUESS_COLORS.length - 1)) "")
    ∧ (submitGuess id s).1.guessCount = s.guessCount + 1 := by
  obtain ⟨h1, h2, -⟩ := submitGuess_wrong_spec s t id hq hc hans hne
  exact ⟨h2, h1⟩

/-- Concrete check of `C8_wrong_guess_color`: the first wrong guess is painted
`GUESS_COLORS[min 0 4] = #ffcccc`. -/
theorem C8_wrong_guess_color_witness :
    ((submitGuess "southern" (runEvents init [Ev.quizButtonClick 0])).1.regions "southern").fill
        = some "#ffcccc" := by
  have h := C8_wrong_guess_color (runEvents init [Ev.quizButtonClick 0]) "africa" "southern"
    (by decide) (by decide) (by decide) (by decide)
  rw [h.1]
  decide

/-- **C10.** During the 800 ms Resolving delay after a question is resolved —
whether by a correct guess or by 5-guess exhaustion — `currentTarget` remains
set and `guessCount` is not reset (an advance timer is pending), so a click on
any still-unanswered non-target region is processed as a further incorrect
guess — `guessCount` increments, the region is colored from the ramp at the
pre-increment index, the incorrect cue plays — and if `guessCount` thereby
reaches or exceeds 5, `totalQuestions` increments again for the
already-resolved question.  Part (a) is the correct-guess entry into the
window, part (b) the exhaustion entry; part (c) states the further-guess
processing for *any* active state with a target set — t may or may not already
be flagged answered, so it applies inside both Resolving windows. -/
theorem C10_resolving_window_extra_guesses (s : St) (t : RegionId)
    (hq : s.quizActive = true) (hc : s.currentTarget = some t) :
    ((s.regions t).answered = false →
      (submitGuess t s).1.quizActive = true
      ∧ (submitGuess t s).1.currentTarget = some t
      ∧ (submitGuess t s).1.guessCount = s.guessCount
      ∧ (submitGuess t s).1.pendingTimers ≠ [])
    ∧ (∀ id, (s.regions id).answered = false → id ≠ t → s.guessCount + 1 ≥ 5 →
        (submitGuess id s).1.quizActive = true
        ∧ (submitGuess id s).1.currentTarget = some t
        ∧ (submitGuess id s).1.guessCount = s.guessCount + 1
        ∧ (submitGuess id s).1.pendingTimers ≠ []
        ∧ ((submitGuess id s).1.regions t).answered = true)
    ∧ (∀ id, (s.regions id).answered = false → id ≠ t →
        (submitGuess id s).1.guessCount = s.guessCount + 1
        ∧ ((submitGuess id s).1.regions id).fill
            = some (GUESS_COLORS.getD (min s.guessCount (GUESS_COLORS.length - 1)) "")
        ∧ (submitGuess id s).2 = [Eff.playWrong]
        ∧ (s.guessCount + 1 ≥ 5 →
            (submitGuess id s).1.totalQuestions = s.totalQuestions + 1)) := by
  refine ⟨fun hans => ?_, fun id hans hne h5 => ?_, fun id hans hne => ?_⟩
  · obtain ⟨c1, c2, c3, -, -, -, -, -, c9⟩ := submitGuess_correct_spec s t hq hc hans
    exact ⟨c3, c1, c2, c9⟩
  · obtain ⟨w1, -, -, -, -, w6, w7, w8, -⟩ := submitGuess_wrong_spec s t id hq hc hans hne
    obtain ⟨f1, -, f3⟩ := w8 h5
    exact ⟨w7, w6, w1, f3, f1⟩
  · obtain ⟨w1, w2, w3, w4, -⟩ := submitGuess_wrong_spec s t id hq hc hans hne
    refine ⟨w1, w2, w3, fun hge => ?_⟩
    rw [w4, if_pos hge]

/-- Concrete check of `C10_resolving_window_extra_guesses` in both Resolving
windows.  Correct-guess window: start the quiz (draw 0, target `africa`),
click `africa`; the target stays set and a further click on `southern` takes
`guessCount` to 1.  Exhaustion window: start the quiz, then four wrong clicks
on `southern`; the fifth wrong click force-resolves (`africa` answered, target
kept) and, from the resulting window state (`guessCount = 5`,
`totalQuestions = 1`), a further wrong click on `antarctica` takes
`guessCount` to 6 and `totalQuestions` to 2. -/
theorem C10_resolving_window_extra_guesses_witness :
    ((submitGuess "africa" (runEvents init [Ev.quizButtonClick 0])).1.currentTarget
        = some "africa")
    ∧ (submitGuess "southern"
        (submitGuess "africa" (runEvents init [Ev.quizButtonClick 0])).1).1.guessCount = 1
    ∧ ((submitGuess "southern" (runEvents init
          [Ev.quizButtonClick 0, Ev.clickRegion "southern", Ev.clickRegion "southern",
           Ev.clickRegion "southern", Ev.clickRegion "southern"])).1.regions
         "africa").answered = true
    ∧ (submitGuess "antarctica" (runEvents init
        [Ev.quizButtonClick 0, Ev.clickRegion "southern", Ev.clickRegion "southern",
         Ev.clickRegion "southern", Ev.clickRegion "southern",
         Ev.clickRegion "southern"])).1.guessCount = 6
    ∧ (submitGuess "antarctica" (runEvents init
        [Ev.quizButtonClick 0, Ev.clickRegion "southern", Ev.clickRegion "southern",
         Ev.clickRegion "southern", Ev.clickRegion "southern",
         Ev.clickRegion "southern"])).1.totalQuestions = 2 := by
  have hA := C10_resolving_window_extra_guesses (runEvents init [Ev.quizButtonClick 0])
    "africa" (by decide) (by decide)
  have hB := C10_resolving_window_extra_guesses
    (submitGuess "africa" (runEvents init [Ev.quizButtonClick 0])).1 "africa"
    ((hA.1 (by decide)).1) ((hA.1 (by decide)).2.1)
  have hC := C10_resolving_window_extra_guesses (runEvents init
    [Ev.quizButtonClick 0, Ev.clickRegion "southern", Ev.clickRegion "southern",
     Ev.clickRegion "southern", Ev.clickRegion "southern"]) "africa" (by decide) (by decide)
  have hD := C10_resolving_window_extra_guesses (runEvents init
    [Ev.quizButtonClick 0, Ev.clickRegion "southern", Ev.clickRegion "southern",
     Ev.clickRegion "southern", Ev.clickRegion "southern",
     Ev.clickRegion "southern"]) "africa" (by decide) (by decide)
  refine ⟨(hA.1 (by decide)).2.1, ?_, ?_, ?_, ?_⟩
  · have h := (hB.2.2 "southern" (by decide) (by decide)).1
    rw [h]
    decide
  · exact (hC.2.1 "southern" (by decide) (by decide) (by decide)).2.2.2.2
  · have h := (hD.2.2 "antarctica" (by decide) (by decide)).1
    rw [h]
    decide
  · have h := (hD.2.2 "antarctica" (by decide) (by decide)).2.2.2 (by decide)
    rw [h]
    decide

/-- **C2, counterexample.** The claim says `guessCount` never exceeds 5 in any
reachable state.  But after the 5th wrong click force-resolves a question, the
target stays set and the clicked region is still unanswered, so a 6th wrong
click during the Resolving window pushes `guessCount` to 6: start the quiz
(target `africa`) and click `southern` six times. -/
theorem C2_counterexample :
    ¬ ∀ s, Reachable s → s.guessCount ≤ 5 := by
  intro hall
  have hr : Reachable (runEvents init
      [Ev.quizButtonClick 0, Ev.clickRegion "southern", Ev.clickRegion "southern",
       Ev.clickRegion "southern", Ev.clickRegion "southern", Ev.clickRegion "southern",
       Ev.clickRegion "southern"]) :=
    ⟨[Ev.quizButtonClick 0, Ev.clickRegion "southern", Ev.clickRegion "southern",
      Ev.clickRegion "southern", Ev.clickRegion "southern", Ev.clickRegion "southern",
      Ev.clickRegion "southern"], rfl⟩
  have h6 : (runEvents init
      [Ev.quizButtonClick 0, Ev.clickRegion "southern", Ev.clickRegion "southern",
       Ev.clickRegion "southern", Ev.clickRegion "southern", Ev.clickRegion "southern",
       Ev.clickRegion "southern"]).guessCount = 6 := by decide
  have := hall _ hr
  omega

/-- **C2, amended.** `guessCount` never exceeds 5 *before the question is
force-resolved*: in every reachable state with the quiz active and no pending
advance timer (the current question still unresolved), `guessCount ≤ 4`, so the
incorrect-guess increment can reach at most 5; and the incorrect guess that
makes `guessCount` reach 5 force-resolves the question — the target region is
marked answered and colored correct, `totalQuestions` increments by exactly 1,
and `correctAnswers` does not increment.  (Only during the Resolving window,
with the advance timer pending, can further wrong clicks push `guessCount`
past 5.) -/
theorem C2_guess_cap_and_force_resolve :
    (∀ s, Reachable s → s.quizActive = true → s.pendingTimers = [] → s.guessCount ≤ 4)
    ∧ (∀ s t id, s.quizActive = true → s.currentTarget = some t →
        (s.regions id).answered = false → id ≠ t → s.guessCount = 4 →
        (submitGuess id s).1.guessCount = 5
        ∧ ((submitGuess id s).1.regions t).answered = true
        ∧ ((submitGuess id s).1.regions t).fill = some CORRECT_FILL
        ∧ (submitGuess id s).1.totalQuestions = s.totalQuestions + 1
        ∧ (submitGuess id s).1.correctAnswers = s.correctAnswers) := by
  constructor
  · intro s hr hq hp
    exact (masterInv_reachable s hr).2.2.2.2 hq hp
  · intro s t id hq hc hans hne hg4
    obtain ⟨w1, -, -, w4, w5, -, -, w8, -⟩ := submitGuess_wrong_spec s t id hq hc hans hne
    rw [hg4] at w1 w4 w8
    obtain ⟨f1, f2, -⟩ := w8 (by omega)
    exact ⟨w1, f1, f2, by rw [w4, if_pos (by omega)], w5⟩

/-- Concrete check of `C2_guess_cap_and_force_resolve`: the freshly started
quiz satisfies the cap, and from a reachable state with `guessCount = 4`
(four wrong clicks on `southern`, target `africa`) the 5th wrong click yields
`guessCount = 5`, the target answered and green, `totalQuestions = 1`,
`correctAnswers = 0`. -/
theorem C2_guess_cap_and_force_resolve_witness :
    (runEvents init [Ev.quizButtonClick 0]).guessCount ≤ 4
    ∧ (submitGuess "southern" (runEvents init
        [Ev.quizButtonClick 0, Ev.clickRegion "southern", Ev.clickRegion "southern",
         Ev.clickRegion "southern", Ev.clickRegion "southern"])).1.guessCount = 5 := by
  constructor
  · exact C2_guess_cap_and_force_resolve.1 (runEvents init [Ev.quizButtonClick 0])
      ⟨[Ev.quizButtonClick 0], rfl⟩ (by decide) (by decide)
  · exact (C2_guess_cap_and_force_resolve.2 (runEvents init
      [Ev.quizButtonClick 0, Ev.clickRegion "southern", Ev.clickRegion "southern",
       Ev.clickRegion "southern", Ev.clickRegion "southern"]) "africa" "southern"
      (by decide) (by decide) (by decide) (by decide) (by decide)).1

/-- **C9, counterexample.** The claim says `currentTarget` is `None` between
questions (after a question resolves, before the next target is selected).
But after a correct guess the code leaves `currentTarget` set during the whole
Resolving window: start the quiz (target `africa`) and click `africa` — the
advance timer is pending (question resolved, next one not selected) yet
`currentTarget` is still `some "africa"`. -/
theorem C9_counterexample :
    (runEvents init [Ev.quizButtonClick 0, Ev.clickRegion "africa"]).pendingTimers ≠ []
    ∧ (runEvents init [Ev.quizButtonClick 0, Ev.clickRegion "africa"]).currentTarget
        = some "africa" := by
  refine ⟨by decide, by decide⟩

/-- **C9, amended.** In every reachable state, `currentTarget` is non-null only
when `active` is true (equivalently, it is `None` whenever no quiz is active);
but between questions — while the advance timer is pending — `currentTarget`
remains set to the just-resolved target. -/
theorem C9_target_nonnull_only_active (s : St) (hr : Reachable s) :
    s.currentTarget ≠ none → s.quizActive = true :=
  (masterInv_reachable s hr).2.2.1

/-- Concrete check of `C9_target_nonnull_only_active` right after starting the
quiz. -/
theorem C9_target_nonnull_only_active_witness :
    (runEvents init [Ev.quizButtonClick 0]).quizActive = true :=
  C9_target_nonnull_only_active (runEvents init [Ev.quizButtonClick 0])
    ⟨[Ev.quizButtonClick 0], rfl⟩ (by decide)

/-- **C3.** For every (reachable) prior state, calling `start()`
(`startQuizFresh`) or `reset()` (`resetQuiz`, which is the same function)
yields an AwaitingAnswer state in which `guessCount`, `totalQuestions` and
`correctAnswers` are all 0, no region is flagged answered, no advance timer is
pending, the quiz is active, and exactly one region is selected as
`currentTarget`, chosen only from regions whose answered flag is false. -/
theorem C3_start_reset_fresh (s : St) (r : Nat) (hr : Reachable s) :
    resetQuiz r s = startQuizFresh r s
    ∧ (startQuizFresh r s).1.quizActive = true
    ∧ (startQuizFresh r s).1.guessCount = 0
    ∧ (startQuizFresh r s).1.totalQuestions = 0
    ∧ (startQuizFresh r s).1.correctAnswers = 0
    ∧ (startQuizFresh r s).1.pendingTimers = []
    ∧ (∀ j ∈ ids, ((startQuizFresh r s).1.regions j).answered = false)
    ∧ ∃ t, (startQuizFresh r s).1.currentTarget = some t ∧ t ∈ ids
        ∧ ((startQuizFresh r s).1.regions t).answered = false := by
  obtain ⟨ht, ha, -⟩ := masterInv_reachable s hr
  have hspec := startQuizFresh_spec r s ht ha
  have hmem : ids.getD (r % ids.length) "" ∈ ids :=
    getD_mem_of_lt ids (r % ids.length) "" (Nat.mod_lt _ (by decide))
  refine ⟨rfl, ?_, ?_, ?_, ?_, ?_, ?_, ?_⟩
  · rw [hspec]
  · rw [hspec]
  · rw [hspec]
  · rw [hspec]
  · rw [hspec]
  · rw [hspec]
    intro j hj
    simp [hj]
  · rw [hspec]
    refine ⟨ids.getD (r % ids.length) "", rfl, hmem, ?_⟩
    have hmem' := hmem
    simp only [List.getD_eq_getElem?_getD] at hmem'
    simp [hmem']

/-- Concrete check of `C3_start_reset_fresh` at page-load state with draw 0. -/
theorem C3_start_reset_fresh_witness :
    (startQuizFresh 0 init).1.quizActive = true
    ∧ (startQuizFresh 0 init).1.guessCount = 0
    ∧ (startQuizFresh 0 init).1.totalQuestions = 0 := by
  have h := C3_start_reset_fresh init 0 ⟨[], rfl⟩
  exact ⟨h.2.1, h.2.2.1, h.2.2.2.1⟩

/-- The spec's rounding, `round(c / n * 100)` with `round(x) = floor(x + 1/2)`
(what `Math.round` computes for the nonnegative values that occur here). -/
def roundPct (c n : Nat) : Nat := Nat.floor ((c : ℚ) / n * 100 + 1/2)

/-- The score the code computes agrees with the spec's
`round(correctAnswers / totalRegionCount * 100)`. -/
theorem jsScore_eq_roundPct (c : Nat) : jsScore c = roundPct c ids.length := by
  unfold jsScore jsRoundPct roundPct
  have hlen : ids.length = 12 := rfl
  rw [hlen]
  have h1 : ((c : ℚ) / ((12 : ℕ) : ℚ) * 100 + 1/2)
      = ((200 * c + 12 : ℕ) : ℚ) / ((24 : ℕ) : ℚ) := by
    push_cast
    ring
  rw [h1, Nat.floor_div_nat, Nat.floor_natCast]
  omega

/-- The 12-question scenario of C4: the quiz is started (draw 0 always picks the
first unanswered region, `africa` first), the first six questions are resolved
by exhaustion (five wrong clicks on `southern` each), the remaining six are
answered correctly on the first try, and each pending advance timer fires. -/
def scenarioEvents : List Ev :=
  [Ev.quizButtonClick 0]
  ++ List.replicate 5 (Ev.clickRegion "southern") ++ [Ev.timerFire 0 0]
  ++ List.replicate 5 (Ev.clickRegion "southern") ++ [Ev.timerFire 1 0]
  ++ List.replicate 5 (Ev.clickRegion "southern") ++ [Ev.timerFire 2 0]
  ++ List.replicate 5 (Ev.clickRegion "southern") ++ [Ev.timerFire 3 0]
  ++ List.replicate 5 (Ev.clickRegion "southern") ++ [Ev.timerFire 4 0]
  ++ List.replicate 5 (Ev.clickRegion "southern") ++ [Ev.timerFire 5 0]
  ++ [Ev.clickRegion "europe", Ev.timerFire 6 0]
  ++ [Ev.clickRegion "indian", Ev.timerFire 7 0]
  ++ [Ev.clickRegion "north_america", Ev.timerFire 8 0]
  ++ [Ev.clickRegion "pacific", Ev.timerFire 9 0]
  ++ [Ev.clickRegion "south_america", Ev.timerFire 10 0]
  ++ [Ev.clickRegion "southern", Ev.timerFire 11 0]

set_option maxRecDepth 100000 in
/-- **C4.** When the session completes (all regions answered,
`showQuizResults`), the score shown equals
`round(correctAnswers / totalRegionCount * 100)` with `totalRegionCount = 12`;
the result title signals a perfect outcome, and the celebration cue plays, if
and only if that score is 100.  In particular 6 first-try-correct plus 6
exhaustion-resolved questions yield `correctAnswers = 6`,
`totalQuestions = 12`, score = 50 (and a non-perfect title). -/
theorem C4_completion_score :
    (∀ s, TimerInv s → AudioInv s →
      (showQuizResults s).1.scoreTextStr
          = "You got " ++ toString s.correctAnswers ++ " out of " ++ toString ids.length
            ++ " correct. (" ++ toString (roundPct s.correctAnswers ids.length) ++ "%)"
      ∧ ids.length = 12
      ∧ ((showQuizResults s).1.resultTitleText = "Great Job!"
          ↔ roundPct s.correctAnswers ids.length = 100)
      ∧ (Eff.playGreatJob ∈ (showQuizResults s).2
          ↔ roundPct s.correctAnswers ids.length = 100))
    ∧ (runEvents init scenarioEvents).correctAnswers = 6
    ∧ (runEvents init scenarioEvents).totalQuestions = 12
    ∧ (runEvents init scenarioEvents).scoreTextStr = "You got 6 out of 12 correct. (50%)"
    ∧ (runEvents init scenarioEvents).resultTitleText = "Quiz Complete!"
    ∧ (runEvents init scenarioEvents).modalVisible = true := by
  refine ⟨?_, by decide, by decide, by decide, by decide, by decide⟩
  intro s ht ha
  rw [showQuizResults_spec s ht ha]
  rw [← jsScore_eq_roundPct]
  refine ⟨rfl, rfl, ?_, ?_⟩
  · by_cases h : jsScore s.correctAnswers = 100 <;> simp [h]
  · by_cases h : jsScore s.correctAnswers = 100 <;> simp [h]

/-- Concrete check of `C4_completion_score`'s completion clause at the fresh
page state (`correctAnswers = 0`, score 0, non-perfect title). -/
theorem C4_completion_score_witness :
    (showQuizResults init).1.scoreTextStr = "You got 0 out of 12 correct. (0%)" := by
  have h := (C4_completion_score.1 init (Or.inl rfl) (Or.inl rfl)).1
  rw [h, ← jsScore_eq_roundPct]
  decide

/-- **C6, counterexample.** The claim says that after `exit()` *or* `reset()`
no prompt audio is playing.  But `reset()` (= `startQuizFresh`) ends by calling
`nextQuestion`, which starts the new question's prompt: after starting and then
resetting the quiz, a prompt audio is playing (and tracked by `promptAudio`). -/
theorem C6_counterexample :
    (runEvents init [Ev.quizButtonClick 0, Ev.resetClick 0]).playingPrompts ≠ []
    ∧ (runEvents init [Ev.quizButtonClick 0, Ev.resetClick 0]).promptAudio ≠ none := by
  refine ⟨by decide, by decide⟩

/-- **C6, amended.** In every reachable state at most one pending
advance-to-next-question timer and at most one playing prompt audio exist
(scheduling or starting a new one first cancels the prior one).  After `exit()`
no pending timer remains and no prompt audio is playing, and no previously
scheduled callback ever fires (a timer-fire event is a no-op).  After `reset()`
no pending timer remains and no previously scheduled callback ever fires, and
the previously playing prompt is stopped — but the *new* question's prompt is
then playing (exactly one). -/
theorem C6_single_timer_single_prompt :
    (∀ s, Reachable s → s.pendingTimers.length ≤ 1 ∧ s.playingPrompts.length ≤ 1)
    ∧ (∀ s, Reachable s →
        (endQuizToHome s).1.pendingTimers = []
        ∧ (endQuizToHome s).1.playingPrompts = []
        ∧ (∀ h r, step (Ev.timerFire h r) (endQuizToHome s).1 = ((endQuizToHome s).1, []))
        ∧ ∀ r, (resetQuiz r s).1.pendingTimers = []
            ∧ (∀ h r2, step (Ev.timerFire h r2) (resetQuiz r s).1 = ((resetQuiz r s).1, []))
            ∧ ∃ a, (resetQuiz r s).1.playingPrompts = [a]
                ∧ (resetQuiz r s).1.promptAudio = some a) := by
  constructor
  · intro s hr
    obtain ⟨ht, ha, -⟩ := masterInv_reachable s hr
    constructor
    · rcases ht with h | ⟨k, hk, -⟩
      · simp [h]
      · simp [hk]
    · rcases ha with h | ⟨k, hk, -⟩
      · simp [h]
      · simp [hk]
  · intro s hr
    obtain ⟨ht, ha, -⟩ := masterInv_reachable s hr
    rw [endQuizToHome_spec s ht ha]
    refine ⟨rfl, rfl, ?_, ?_⟩
    · intro h r
      simp [step]
    · intro r
      simp only [resetQuiz]
      rw [startQuizFresh_spec r s ht ha]
      refine ⟨rfl, ?_, ⟨s.audioCtr, rfl, rfl⟩⟩
      intro h r2
      simp [step]

/-- Concrete check of `C6_single_timer_single_prompt` right after the quiz is
started. -/
theorem C6_single_timer_single_prompt_witness :
    (runEvents init [Ev.quizButtonClick 0]).pendingTimers.length ≤ 1
    ∧ (endQuizToHome (runEvents init [Ev.quizButtonClick 0])).1.playingPrompts = [] :=
  ⟨(C6_single_timer_single_prompt.1 (runEvents init [Ev.quizButtonClick 0])
      ⟨[Ev.quizButtonClick 0], rfl⟩).1,
   (C6_single_timer_single_prompt.2 (runEvents init [Ev.quizButtonClick 0])
      ⟨[Ev.quizButtonClick 0], rfl⟩).2.1⟩

set_option maxRecDepth 100000 in
/-- **C7, counterexample.** From the Complete state reached by the 12-question
scenario the results modal is visible; `reset()` leaves it visible while
`exit(); start()` hides it, so the two are not equivalent there. -/
theorem C7_counterexample :
    (resetQuiz 0 (runEvents init scenarioEvents)).1.modalVisible = true
    ∧ (startQuizFresh 0 (endQuizToHome (runEvents init scenarioEvents)).1).1.modalVisible
        = false := by
  refine ⟨by decide, by decide⟩

/-- **C7, amended.** For every reachable prior state, `reset()` produces the
same resulting session state and the same presentation side effects as `exit()`
immediately followed by `start()` — except for the results modal: `reset()`
leaves its visibility unchanged while `exit();start()` hides it.  In
particular, whenever the modal is already hidden the two are exactly equal, and
the emitted cue/prompt side effects agree in every case. -/
theorem C7_reset_vs_exit_start (s : St) (r : Nat) (hr : Reachable s) :
    (s.modalVisible = false → resetQuiz r s = startQuizFresh r (endQuizToHome s).1)
    ∧ (resetQuiz r s).1.modalVisible = s.modalVisible
    ∧ (startQuizFresh r (endQuizToHome s).1).1.modalVisible = false
    ∧ (resetQuiz r s).2 = (startQuizFresh r (endQuizToHome s).1).2 := by
  obtain ⟨ht, ha, -⟩ := masterInv_reachable s hr
  have hE := endQuizToHome_spec s ht ha
  have h1 : resetQuiz r s = startQuizFresh r s := rfl
  have h2 := startQuizFresh_spec r s ht ha
  have hTE : TimerInv (endQuizToHome s).1 := by rw [hE]; exact Or.inl rfl
  have hAE : AudioInv (endQuizToHome s).1 := by rw [hE]; exact Or.inl rfl
  have h3 := startQuizFresh_spec r ((endQuizToHome s).1) hTE hAE
  refine ⟨?_, ?_, ?_, ?_⟩
  · intro hm
    rw [h1, h2, h3, hE]
    simp only [Prod.mk.injEq]
    constructor
    · apply St.ext <;> try rfl
      · funext j
        by_cases hj : j ∈ ids
        · simp [hj]
        · simp [hj]
      · exact hm
    · trivial
  · rw [h1, h2]
  · rw [h3, hE]
  · rw [h1, h2, h3, hE]

/-- Concrete check of `C7_reset_vs_exit_start` at page-load state (modal
hidden): reset and exit-then-start coincide exactly. -/
theorem C7_reset_vs_exit_start_witness :
    resetQuiz 0 init = startQuizFresh 0 (endQuizToHome init).1 :=
  (C7_reset_vs_exit_start init 0 ⟨[], rfl⟩).1 rfl

end WorldMap
